import Mathlib

/-!
Shallow embedding of `furiosa/models/utils.py` (artifact resolution and
caching chain) and verification of its specified properties.

Modelling conventions:
* Python strings are `List Char` (`Str`); byte sequences are `List Nat`.
* Filesystem paths are lists of components (`FPath`); the empty list is the
  filesystem root, whose parent is itself, and `Path.name` is the last
  component.
* The process environment (version tag, filesystem contents, DVC cache
  location, descriptor sidecars, remote store, glob results) is a `World`
  record; file reads are lookups in `World.files` and the single cache write
  performed by `ArtifactResolver.read` is a functional update of that map.
* Python exceptions are explicit error values: `ArtifactResolver.read`
  returns a `ReadResult` carrying the outcome, the resulting world and
  whether a remote HTTP GET was performed.
-/

deriving instance DecidableEq for Except

namespace FuriosaModels

abbrev Str := List Char
abbrev Bytes := List Nat
abbrev FPath := List Str

/-- Coerce a Lean string literal to the `List Char` representation. -/
def str (s : String) : Str := s.toList

/-- `Path.name`: the final path component (empty for the root). -/
def pname (p : FPath) : Str := p.getLastD []

/-- `removesuffix` from utils.py: if `base` ends with `suffix`, slice it off
(`base[: len(base) - len(suffix)]`), otherwise return `base` unchanged. -/
def removesuffix (base suffix : Str) : Str :=
  if suffix.isSuffixOf base then base.take (base.length - suffix.length)
  else base

def EXT_CALIB_YAML : Str := str "calib_range.yaml"
def EXT_ENF : Str := str "enf"
def EXT_ONNX : Str := str "onnx"

def GENERATED_EXTENSIONS : List Str := [EXT_ENF]

def DVC_PUBLIC_HTTP_ENDPOINT : Str :=
  str "https://furiosa-public-artifacts.s3-accelerate.amazonaws.com/furiosa-artifacts"

/-- `ArtifactResolver.get_url`: the source's `http_endpoint` parameter always
takes its default `DVC_PUBLIC_HTTP_ENDPOINT` at the one call site. -/
def get_url (directory filename : Str) : Str :=
  DVC_PUBLIC_HTTP_ENDPOINT ++ str "/" ++ directory ++ str "/" ++ filename

/-- The process environment and storage state visible to the resolver. -/
structure World where
  /-- `version_info()`: `None` when no nux library is found. -/
  versionTag : Option Str
  /-- `CACHE_DIRECTORY_BASE` (environment-derived cache root). -/
  cacheRoot : FPath
  /-- Contents of regular files, by path; `none` means the path
  does not exist. -/
  files : FPath → Option Bytes
  /-- `self.dvc_cache_path` as computed in `ArtifactResolver.__init__`
  (the `DVC_REPO` override or the discovered `.dvc/cache`, symlinks
  resolved). -/
  dvcCachePath : Option FPath
  /-- The descriptor sidecar next to a path: `some (md5, size)` when
  `{path}.dvc` exists and parses, `none` when it is missing or
  malformed. -/
  descriptors : FPath → Option (Str × Nat)
  /-- The remote HTTP store: response body for a GET of a URL, `none`
  meaning a non-200 status. -/
  remote : Str → Option Bytes
  /-- `directory.glob(pattern)` fed to `next(...)`: the first match, or
  `none` when the iterator is empty. -/
  glob : FPath → Str → Option FPath

/-- `ArtifactResolver.parse_dvc_file`: split the descriptor's hash into the
first two characters (directory) and the rest (filename), with the declared
size. `none` models the exception when the sidecar is missing/unreadable. -/
def parse_dvc_file (w : World) (file_path : FPath) : Option (Str × Str × Nat) :=
  (w.descriptors file_path).map fun d => (d.1.take 2, d.1.drop 2, d.2)

/-- The ways `ArtifactResolver.read` can fail. -/
inductive ReadError where
  /-- `CACHE_DIRECTORY_BASE / version_info() / ...` with `version_info()`
  returning `None`: `Path.__truediv__(None)` raises `TypeError`. -/
  | typeError
  /-- `parse_dvc_file` raised: the `.dvc` sidecar is missing or malformed. -/
  | descriptorMalformed
  /-- `assert len(data) == size` failed (an `AssertionError`); this is the
  spec's `IntegrityMismatch`. -/
  | integrityMismatch
  /-- `errors.NotFoundInDVCRemote`: the remote returned a non-200 status. -/
  | notFoundInDVCRemote
  deriving DecidableEq, Repr

/-- Outcome of one `ArtifactResolver.read` call: the returned bytes or the
raised error, the world afterwards (the cache write is the only mutation),
and whether a remote HTTP GET was issued. -/
structure ReadResult where
  result : Except ReadError Bytes
  world : World
  fetched : Bool

/-- Write `data` at path `p` (the version-namespaced cache write, parent
directories created as needed). -/
def updateFiles (w : World) (p : FPath) (data : Bytes) : World :=
  { w with files := fun q => if q = p then some data else w.files q }

/-- The "Fetching from remote" block of `ArtifactResolver.read`: GET the
content-addressed URL (non-200 raises `NotFoundInDVCRemote`), assert the
body length against the declared size, then cache the bytes at
`CACHE_DIRECTORY_BASE / version_info() / uri.name` and return them.  The
assert runs before the cache write, so a mismatch writes nothing. -/
def fetchRemote (w : World) (uri : FPath) (v directory filename : Str)
    (size : Nat) : ReadResult :=
  match w.remote (get_url directory filename) with
  | none => ⟨.error .notFoundInDVCRemote, w, true⟩
  | some data =>
    if data.length = size then
      ⟨.ok data, updateFiles w (w.cacheRoot ++ [v, pname uri]) data, true⟩
    else ⟨.error .integrityMismatch, w, true⟩

/-- `ArtifactResolver.read`, tier by tier:
1. the version-namespaced cache `CACHE_DIRECTORY_BASE / version_info() / uri.name`
   (computing this path raises `TypeError` when the version tag is absent);
2. the literal path `uri` itself;
3. the content-addressed DVC cache (size-checked);
4. a remote GET (size-checked, then written back to the tier-1 path). -/
def read (w : World) (uri : FPath) : ReadResult :=
  match w.versionTag with
  | none => ⟨.error .typeError, w, false⟩
  | some v =>
    match w.files (w.cacheRoot ++ [v, pname uri]) with
    | some data => ⟨.ok data, w, false⟩
    | none =>
      match w.files uri with
      | some data => ⟨.ok data, w, false⟩
      | none =>
        match parse_dvc_file w uri with
        | none => ⟨.error .descriptorMalformed, w, false⟩
        | some (directory, filename, size) =>
          match w.dvcCachePath with
          | none => fetchRemote w uri v directory filename size
          | some root =>
            match w.files (root ++ [directory, filename]) with
            | some data =>
              if data.length = size then ⟨.ok data, w, false⟩
              else ⟨.error .integrityMismatch, w, false⟩
            | none => fetchRemote w uri v directory filename size

/-- The DVC-cache tier yields nothing: either no cache root is configured or
the candidate file is absent (the source logs a warning and falls through). -/
def dvcTierMisses (w : World) (directory filename : Str) : Prop :=
  ∀ root, w.dvcCachePath = some root →
    w.files (root ++ [directory, filename]) = none

/-- `ArtifactResolver.find_dvc_cache_directory`: walk upward from `path`
looking for a `.dvc` marker directory; at the filesystem root (where a path
equals its own parent, here the empty component list) return `None`.
`hasDvcDir p` models `(p / ".dvc").is_dir()`. -/
def find_dvc_cache_directory (hasDvcDir : FPath → Bool) (path : FPath) :
    Option FPath :=
  match path with
  | [] => none
  | a :: rest =>
    if hasDvcDir (a :: rest) then some ((a :: rest) ++ [str ".dvc", str "cache"])
    else find_dvc_cache_directory hasDvcDir (a :: rest).dropLast
termination_by path.length
decreasing_by simp [List.length_dropLast]

/-- The chain of directories visited by the upward walk: the path itself,
then each proper ancestor down to (but excluding) the root. -/
def ancestors (path : FPath) : List FPath :=
  match path with
  | [] => []
  | a :: rest => (a :: rest) :: ancestors (a :: rest).dropLast
termination_by path.length
decreasing_by simp [List.length_dropLast]

/-- The ways `resolve_file` can terminate abnormally. -/
inductive ResolveFileError where
  /-- `errors.ArtifactNotFound`, raised by the `except Exception` wrapper. -/
  | artifactNotFound (msg : Str)
  /-- The raw exception escaping `next(...)` when the glob for
  `*.{extension}.dvc` matches nothing; this happens outside the
  `try` block, so nothing wraps it. -/
  | rawStopIteration
  /-- `errors.VersionInfoNotFound` from the `generated_path_base is None`
  check. -/
  | versionInfoNotFound
  deriving DecidableEq, Repr

/-- `str.lower()`. -/
def lowerStr (s : Str) : Str := s.map Char.toLower

/-- `Path.with_suffix('')` applied to a file name: drop the extension (the
part from the last dot), keeping names with no dot or only a leading dot
unchanged. -/
def dropSuffixName (name : Str) : Str :=
  let ext := (name.reverse.takeWhile (· ≠ '.')).reverse
  if ext.length = name.length then name
  else if name.length - ext.length - 1 = 0 then name
  else name.take (name.length - ext.length - 1)

/-- `Path.with_suffix('')` on a path: rewrite the last component. -/
def with_suffix_empty (p : FPath) : FPath :=
  match p with
  | [] => []
  | _ => p.dropLast ++ [dropSuffixName (pname p)]

/-- Render a path to the string used inside the `ArtifactNotFound`
message. -/
def renderPath (p : FPath) : Str := (str "/").intercalate p

/-- `resolve_file(src_name, extension, generated_suffix="_warboy_2pe")`.
For a generated extension the logical path is
`DATA_DIRECTORY_BASE / f"generated/{version_info()}" / file_name`; note the
f-string always yields a string (a `None` tag renders as `"None"`), so the
subsequent `is None` check can never fire.  For other extensions the path
comes from the first glob match for `*.{extension}.dvc` — `next()` on an
empty iterator raises outside the `try`.  Any exception from constructing
or reading the resolver inside the `try` is re-raised as
`ArtifactNotFound`. -/
def resolve_file (w : World) (dataRoot : FPath)
    (src_name extension generated_suffix : Str) :
    Except ResolveFileError Bytes × World :=
  if lowerStr extension ∈ GENERATED_EXTENSIONS then
    let generated_path_base : Option Str :=
      some (str "generated/" ++
        (match w.versionTag with | some v => v | none => str "None"))
    match generated_path_base with
    | none => (.error .versionInfoNotFound, w)
    | some _ =>
      let file_name := src_name ++ generated_suffix ++ str "." ++ extension
      let vcomp : Str :=
        match w.versionTag with | some v => v | none => str "None"
      let full_path := dataRoot ++ [str "generated", vcomp, file_name]
      let r := read w full_path
      match r.result with
      | .ok data => (.ok data, r.world)
      | .error _ =>
        (.error (.artifactNotFound
          (src_name ++ str ":" ++ renderPath full_path ++ str "." ++ extension)),
         r.world)
  else
    match w.glob (dataRoot ++ [src_name]) (str "*." ++ extension ++ str ".dvc") with
    | none => (.error .rawStopIteration, w)
    | some globbed =>
      let full_path := with_suffix_empty globbed
      let r := read w full_path
      match r.result with
      | .ok data => (.ok data, r.world)
      | .error _ =>
        (.error (.artifactNotFound
          (src_name ++ str ":" ++ renderPath full_path ++ str "." ++ extension)),
         r.world)

/-- `asyncio.gather(*tasks)`: all results in task order, or the first
failure. -/
def gather {ε α : Type} : List (Except ε α) → Except ε (List α)
  | [] => .ok []
  | t :: ts =>
    match t with
    | .error e => .error e
    | .ok a => (gather ts).map (a :: ·)

/-- The body of `load_artifacts` generalised over the extension list: fan
out `resolve_file` (each task starting from the shared initial world), join
with `gather`, and zip extensions with the gathered binaries into the
result mapping (an association list standing for the Python dict). -/
def load_artifacts_exts (w : World) (dataRoot : FPath) (name : Str)
    (exts : List Str) : Except ResolveFileError (List (Str × Bytes)) :=
  (gather (exts.map fun ext =>
      (resolve_file w dataRoot name ext (str "_warboy_2pe")).1)).map
    fun bins => exts.zip bins

/-- `load_artifacts(name)` with its fixed extension list. -/
def load_artifacts (w : World) (dataRoot : FPath) (name : Str) :
    Except ResolveFileError (List (Str × Bytes)) :=
  load_artifacts_exts w dataRoot name [EXT_ONNX, EXT_CALIB_YAML, EXT_ENF]

/-!  Concrete environments, used to exercise the theorems on closed
inputs. -/

/-- A process with no version tag, empty filesystem, no DVC cache, no
descriptors, an unreachable remote and empty glob results. -/
def emptyWorld : World where
  versionTag := none
  cacheRoot := []
  files := fun _ => none
  dvcCachePath := none
  descriptors := fun _ => none
  remote := fun _ => none
  glob := fun _ _ => none

/-- A sample artifact reference. -/
def sampleUri : FPath := [str "d", str "m.onnx"]

/-- Version tag present and the version-namespaced cache entry populated. -/
def cacheHitWorld : World := { emptyWorld with
  versionTag := some (str "v")
  cacheRoot := [str "cr"]
  files := fun p => if p = [str "cr", str "v", str "m.onnx"] then some [1, 2] else none }

/-- No version tag, but the literal artifact file exists on disk. -/
def noTagWorld : World := { emptyWorld with
  files := fun p => if p = sampleUri then some [7] else none }

/-- Version tag present, caches cold, descriptor declaring size 2, and a
remote body of the wrong length (3 bytes). -/
def badSizeWorld : World := { emptyWorld with
  versionTag := some (str "v")
  cacheRoot := [str "cr"]
  descriptors := fun p => if p = sampleUri then some (str "abcd", 2) else none
  remote := fun url => if url = get_url (str "ab") (str "cd") then some [9, 9, 9] else none }

/-- Like `badSizeWorld` but the remote body has the declared length. -/
def remoteWorld : World := { badSizeWorld with
  remote := fun url => if url = get_url (str "ab") (str "cd") then some [9, 9] else none }

/-- A world carrying only a descriptor sidecar for `m.onnx`. -/
def descWorld : World := { emptyWorld with
  descriptors := fun p => if p = [str "m.onnx"] then some (str "abcd", 7) else none }

/-!  Theorems. -/

/-- C10: `removesuffix` slices off a matching suffix exactly — appending the
suffix back restores `base` — and leaves `base` untouched when it does not
end with the suffix. -/
theorem removesuffix_spec (base suffix : Str) :
    (suffix.isSuffixOf base = true →
      removesuffix base suffix ++ suffix = base) ∧
    (suffix.isSuffixOf base = false → removesuffix base suffix = base) := by
  constructor
  · intro h
    obtain ⟨t, ht⟩ := List.isSuffixOf_iff_suffix.mp h
    unfold removesuffix
    rw [if_pos h, ← ht, List.length_append, Nat.add_sub_cancel, List.take_left]
  · intro h
    unfold removesuffix
    rw [if_neg (by simp [h])]

/-- C10 witness: a matching and a non-matching suffix on `"m.onnx"`. -/
theorem removesuffix_spec_witness :
    removesuffix (str "m.onnx") (str ".onnx") ++ str ".onnx" = str "m.onnx" ∧
    removesuffix (str "m.onnx") (str "enf") = str "m.onnx" :=
  ⟨(removesuffix_spec (str "m.onnx") (str ".onnx")).1 (by decide),
   (removesuffix_spec (str "m.onnx") (str "enf")).2 (by decide)⟩

/-- C8: when the descriptor's hash has length at least 2, `parse_dvc_file`
splits it into a 2-character directory prefix and the remaining filename,
whose concatenation restores the hash. -/
theorem parse_dvc_file_split (w : World) (p : FPath) (md5 : Str) (size : Nat)
    (hd : w.descriptors p = some (md5, size)) (hlen : 2 ≤ md5.length) :
    parse_dvc_file w p = some (md5.take 2, md5.drop 2, size) ∧
    md5.take 2 ++ md5.drop 2 = md5 ∧ (md5.take 2).length = 2 := by
  refine ⟨by simp [parse_dvc_file, hd], List.take_append_drop 2 md5, ?_⟩
  simp [List.length_take, Nat.min_eq_left hlen]

/-- C8 witness: the descriptor for `m.onnx` in `descWorld` (hash `"abcd"`,
size 7). -/
theorem parse_dvc_file_split_witness :
    parse_dvc_file descWorld [str "m.onnx"] =
      some ((str "abcd").take 2, (str "abcd").drop 2, 7) ∧
    (str "abcd").take 2 ++ (str "abcd").drop 2 = str "abcd" ∧
    ((str "abcd").take 2).length = 2 :=
  parse_dvc_file_split descWorld [str "m.onnx"] (str "abcd") 7 (by decide)
    (by decide)

/-- C9: the upward walk for the `.dvc` marker is total and returns the
marker-derived cache path of the nearest ancestor (the walked chain
`ancestors` stops at the filesystem root, where it yields `none` rather
than an error). -/
theorem find_dvc_cache_directory_spec (hasDvcDir : FPath → Bool) (p : FPath) :
    find_dvc_cache_directory hasDvcDir p =
      ((ancestors p).find? hasDvcDir).map
        (fun a => a ++ [str ".dvc", str "cache"]) := by
  match p with
  | [] => simp [find_dvc_cache_directory, ancestors]
  | a :: rest =>
    rw [find_dvc_cache_directory, ancestors]
    cases h : hasDvcDir (a :: rest) with
    | true => simp [h]
    | false =>
      rw [if_neg (by simp [h]), List.find?_cons_of_neg _ (by simp [h])]
      exact find_dvc_cache_directory_spec hasDvcDir (a :: rest).dropLast
termination_by p.length
decreasing_by simp [List.length_dropLast]

/-- C1 counterexample: with no version tag, `read` does not fall through to
the literal-path tier even though the literal file exists — the tier-1 path
computation `CACHE_DIRECTORY_BASE / version_info() / uri.name` raises
`TypeError` first. -/
theorem read_no_tag_counterexample :
    noTagWorld.versionTag = none ∧
    noTagWorld.files sampleUri = some [7] ∧
    (read noTagWorld sampleUri).result = .error .typeError := by decide

/-- C1 (amended): when the version tag provider yields no tag, `read`
raises `TypeError` at the tier-1 cache-path computation before attempting
any tier, instead of skipping tier 1 and falling through. -/
theorem read_no_tag_raises (w : World) (uri : FPath)
    (h : w.versionTag = none) :
    read w uri = ⟨.error .typeError, w, false⟩ := by
  simp [read, h]

/-- C1 witness: the amended claim at `noTagWorld`. -/
theorem read_no_tag_raises_witness :
    read noTagWorld sampleUri = ⟨.error .typeError, noTagWorld, false⟩ :=
  read_no_tag_raises noTagWorld sampleUri rfl

/-- C3: a version-namespaced cache hit returns the cached bytes verbatim
with no filesystem change and no remote fetch, regardless of what the
literal path, the descriptor, the DVC cache or the remote hold. -/
theorem read_tier1_cache_hit (w : World) (uri : FPath) (v : Str)
    (data : Bytes) (hv : w.versionTag = some v)
    (hc : w.files (w.cacheRoot ++ [v, pname uri]) = some data) :
    read w uri = ⟨.ok data, w, false⟩ := by
  simp [read, hv, hc]

/-- C3 witness: `cacheHitWorld` serves `[1, 2]` from the cache entry even
though every other tier is empty. -/
theorem read_tier1_cache_hit_witness :
    read cacheHitWorld sampleUri = ⟨.ok [1, 2], cacheHitWorld, false⟩ :=
  read_tier1_cache_hit cacheHitWorld sampleUri (str "v") [1, 2] rfl (by decide)

/-- C2: whenever the bytes come from the DVC cache tier or from the remote
and their length differs from the descriptor's declared size, `read` fails
with the integrity error (`assert len(data) == size`) and leaves the world
unchanged — in particular no cache file is written. -/
theorem read_integrity_mismatch (w : World) (uri : FPath) (v md5 : Str)
    (size : Nat) (hv : w.versionTag = some v)
    (h1 : w.files (w.cacheRoot ++ [v, pname uri]) = none)
    (h2 : w.files uri = none)
    (hd : w.descriptors uri = some (md5, size))
    (hbad :
      (∃ root data, w.dvcCachePath = some root ∧
        w.files (root ++ [md5.take 2, md5.drop 2]) = some data ∧
        data.length ≠ size) ∨
      (dvcTierMisses w (md5.take 2) (md5.drop 2) ∧
        ∃ data, w.remote (get_url (md5.take 2) (md5.drop 2)) = some data ∧
          data.length ≠ size)) :
    (read w uri).result = .error .integrityMismatch ∧
    (read w uri).world = w := by
  rcases hbad with ⟨root, data, hroot, hcand, hne⟩ | ⟨hmiss, data, hrem, hne⟩
  · simp [read, hv, h1, h2, parse_dvc_file, hd, hroot, hcand, hne]
  · cases hr : w.dvcCachePath with
    | none => simp [read, fetchRemote, hv, h1, h2, parse_dvc_file, hd, hr, hrem, hne]
    | some root =>
      have hcand := hmiss root hr
      simp [read, fetchRemote, hv, h1, h2, parse_dvc_file, hd, hr, hcand, hrem, hne]

/-- C2 witness: `badSizeWorld`'s remote serves 3 bytes against a declared
size of 2; `read` fails with the integrity error and writes nothing. -/
theorem read_integrity_mismatch_witness :
    (read badSizeWorld sampleUri).result = .error .integrityMismatch ∧
    (read badSizeWorld sampleUri).world = badSizeWorld :=
  read_integrity_mismatch badSizeWorld sampleUri (str "v") (str "abcd") 2
    rfl (by decide) (by decide) (by decide)
    (Or.inr ⟨(fun root h => nomatch h), ⟨[9, 9, 9], by decide, by decide⟩⟩)

/-- C5: after a first `read` that succeeded via a remote fetch
(`fetched = true`), a second `read` of the same reference returns the same
bytes from the cache entry written by the first call, changes nothing, and
performs no remote fetch. -/
theorem read_idempotent_after_fetch (w w' : World) (uri : FPath)
    (data : Bytes) (h : read w uri = ⟨.ok data, w', true⟩) :
    read w' uri = ⟨.ok data, w', false⟩ := by
  unfold read at h
  cases hv : w.versionTag with
  | none => simp only [hv] at h; simp at h
  | some v =>
    simp only [hv] at h
    cases h1 : w.files (w.cacheRoot ++ [v, pname uri]) with
    | some d => simp only [h1] at h; simp at h
    | none =>
      simp only [h1] at h
      cases h2 : w.files uri with
      | some d => simp only [h2] at h; simp at h
      | none =>
        simp only [h2] at h
        cases hd : parse_dvc_file w uri with
        | none => simp only [hd] at h; simp at h
        | some dfs =>
          obtain ⟨directory, filename, size⟩ := dfs
          simp only [hd] at h
          have hfetch :
              fetchRemote w uri v directory filename size = ⟨.ok data, w', true⟩ →
              read w' uri = ⟨.ok data, w', false⟩ := by
            intro hh
            unfold fetchRemote at hh
            cases hr : w.remote (get_url directory filename) with
            | none => simp only [hr] at hh; simp at hh
            | some rdata =>
              simp only [hr] at hh
              by_cases hsz : rdata.length = size
              · rw [if_pos hsz] at hh
                simp only [ReadResult.mk.injEq, Except.ok.injEq] at hh
                obtain ⟨hdata, hw, -⟩ := hh
                subst hdata
                subst hw
                simp [read, updateFiles, hv]
              · rw [if_neg hsz] at hh; simp at hh
          cases hdvc : w.dvcCachePath with
          | none => simp only [hdvc] at h; exact hfetch h
          | some root =>
            simp only [hdvc] at h
            cases hcand : w.files (root ++ [directory, filename]) with
            | some cdata =>
              simp only [hcand] at h
              by_cases hsz : cdata.length = size
              · rw [if_pos hsz] at h; simp at h
              · rw [if_neg hsz] at h; simp at h
            | none => simp only [hcand] at h; exact hfetch h

/-- C5 witness: `remoteWorld`, whose first resolution fetches `[9, 9]`
remotely; the second resolution serves it from the written cache entry. -/
theorem read_idempotent_after_fetch_witness :
    read (read remoteWorld sampleUri).world sampleUri =
      ⟨.ok [9, 9], (read remoteWorld sampleUri).world, false⟩ :=
  read_idempotent_after_fetch remoteWorld (read remoteWorld sampleUri).world
    sampleUri [9, 9] rfl

/-- Helper: a successful `gather` returns as many results as tasks. -/
theorem gather_ok_length {e a : Type} (ts : List (Except e a)) (as : List a)
    (h : gather ts = .ok as) : as.length = ts.length := by
  induction ts generalizing as with
  | nil =>
    simp [gather] at h
    subst h
    rfl
  | cons t tl ih =>
    cases t with
    | error e => simp [gather] at h
    | ok x =>
      simp only [gather] at h
      cases hg : gather tl with
      | error e => rw [hg] at h; simp [Except.map] at h
      | ok bs =>
        rw [hg] at h
        simp [Except.map] at h
        subst h
        simp [ih bs hg]

/-- Helper: `gather` fails whenever one of its tasks failed. -/
theorem gather_error_of_mem {e a : Type} (ts : List (Except e a))
    (t : Except e a) (hmem : t ∈ ts) (hfail : t.isOk = false) :
    ∃ err, gather ts = .error err := by
  induction ts with
  | nil => cases hmem
  | cons hd tl ih =>
    cases hd with
    | error err => exact ⟨err, by simp [gather]⟩
    | ok x =>
      rcases List.mem_cons.mp hmem with rfl | hmem2
      · simp [Except.isOk, Except.toBool] at hfail
      · obtain ⟨err, he⟩ := ih hmem2
        exact ⟨err, by simp [gather, he, Except.map]⟩

/-- C4: the batch loader fails as a whole when any extension's resolution
fails (no partial mapping is produced), and on success the mapping's keys
are exactly the requested extensions in order. -/
theorem load_artifacts_exts_spec (w : World) (dataRoot : FPath) (name : Str)
    (exts : List Str) :
    ((∃ ext ∈ exts,
        ((resolve_file w dataRoot name ext (str "_warboy_2pe")).1).isOk =
          false) →
      ∃ err, load_artifacts_exts w dataRoot name exts = .error err) ∧
    (∀ bundle, load_artifacts_exts w dataRoot name exts = .ok bundle →
      bundle.map Prod.fst = exts) := by
  constructor
  · rintro ⟨ext, hmem, hfail⟩
    obtain ⟨err, he⟩ := gather_error_of_mem _ _
      (List.mem_map_of_mem
        (fun x => (resolve_file w dataRoot name x (str "_warboy_2pe")).1) hmem)
      hfail
    exact ⟨err, by simp [load_artifacts_exts, he, Except.map]⟩
  · intro bundle h
    unfold load_artifacts_exts at h
    cases hg : gather (exts.map fun ext =>
        (resolve_file w dataRoot name ext (str "_warboy_2pe")).1) with
    | error err => rw [hg] at h; simp [Except.map] at h
    | ok bins =>
      rw [hg] at h
      simp [Except.map] at h
      subst h
      have hlen := gather_ok_length _ _ hg
      rw [List.length_map] at hlen
      exact List.map_fst_zip _ _ (Nat.le_of_eq hlen.symm)

/-- C4 witness: with empty glob results, resolving `["onnx"]` fails as a
whole; and the empty request yields the empty mapping with matching keys. -/
theorem load_artifacts_exts_spec_witness :
    (∃ err, load_artifacts_exts emptyWorld [str "d"] (str "m") [str "onnx"] =
      .error err) ∧
    ([] : List (Str × Bytes)).map Prod.fst = [] :=
  ⟨(load_artifacts_exts_spec emptyWorld [str "d"] (str "m") [str "onnx"]).1
      ⟨str "onnx", by simp, by decide⟩,
   (load_artifacts_exts_spec emptyWorld [] (str "m") []).2 [] rfl⟩

/-- C6 (code bug): for the generated extension `"enf"` with no version tag,
`resolve_file` does not raise `VersionInfoNotFound`: `generated_path_base`
is the f-string `f"generated/{version_info()}"`, which renders the absent
tag as the string `"None"`, so the `is None` guard is dead; resolution
proceeds with the `generated/None/...` path and the failure surfaces as
`ArtifactNotFound` from the wrapper instead. -/
theorem resolve_file_enf_no_version_tag :
    (resolve_file emptyWorld [] (str "m") (str "enf") (str "_warboy_2pe")).1 =
      .error (.artifactNotFound (str "m:generated/None/m_warboy_2pe.enf.enf")) := by
  decide

/-- C7 counterexample: with no descriptor sidecar matching `m` / `onnx`
under the data root, `resolve_file` surfaces the raw exception escaping
`next(...)` — the glob runs outside the `try` block — rather than a typed
`ArtifactNotFound`. -/
theorem resolve_file_raw_error_counterexample :
    (resolve_file emptyWorld [str "d"] (str "m") (str "onnx")
      (str "_warboy_2pe")).1 = .error .rawStopIteration := by
  decide

/-- C7 (amended): every abnormal exit of `resolve_file` is the typed
`ArtifactNotFound` wrapper, except exactly when no descriptor sidecar
matches the name and extension — then the raw `StopIteration` from
`next(...)` escapes unwrapped. -/
theorem resolve_file_errors_typed_except_empty_glob (w : World)
    (dataRoot : FPath) (src_name extension generated_suffix : Str)
    (err : ResolveFileError)
    (h : (resolve_file w dataRoot src_name extension generated_suffix).1 =
      .error err) :
    (∃ m, err = .artifactNotFound m) ∨
    (err = .rawStopIteration ∧
      w.glob (dataRoot ++ [src_name])
        (str "*." ++ extension ++ str ".dvc") = none) := by
  unfold resolve_file at h
  by_cases hg : lowerStr extension ∈ GENERATED_EXTENSIONS
  · rw [if_pos hg] at h
    simp only [] at h
    split at h
    · simp at h
    · exact Or.inl ⟨_, by injection h with h2; exact h2.symm⟩
  · rw [if_neg hg] at h
    cases hglob : w.glob (dataRoot ++ [src_name])
        (str "*." ++ extension ++ str ".dvc") with
    | none =>
      simp only [hglob] at h
      refine Or.inr ⟨?_, rfl⟩
      injection h with h2
      exact h2.symm
    | some globbed =>
      simp only [hglob] at h
      split at h
      · simp at h
      · exact Or.inl ⟨_, by injection h with h2; exact h2.symm⟩

/-- C7 witness: the amended claim at a world with empty glob results. -/
theorem resolve_file_errors_typed_except_empty_glob_witness :
    (∃ m, ResolveFileError.rawStopIteration = .artifactNotFound m) ∨
    (ResolveFileError.rawStopIteration = .rawStopIteration ∧
      emptyWorld.glob [str "e", str "m"] (str "*.onnx.dvc") = none) :=
  resolve_file_errors_typed_except_empty_glob emptyWorld [str "e"] (str "m")
    (str "onnx") (str "s") .rawStopIteration rfl

end FuriosaModels
